import Mathlib

/-!
Verification of `src/scene/animation/mod.rs` (the `AnimationPlayer` scene node of
the Fyrox engine) against its natural-language specification.

The file under `src/` defines the `AnimationPlayer` node, its accessors, its
per-frame `update`, and the `AnimationPlayerBuilder`.  Its collaborators
(`InheritableVariable`, `AnimationContainer`, `Base`, `Graph`) live elsewhere in
the repository and are modelled here from the spec, each marked
`Modelled from the spec:` in its doc comment.  Rust in-place mutation is embedded
as explicit state passing; the frame time `dt` (an `f32` in Rust) is embedded as
`Rat`, since no claim depends on floating-point rounding.
-/

namespace Fyrox

/-- Modelled from the spec: a 128-bit type UUID, embedded as its numeric value. -/
abbrev Uuid := Nat

/-- Modelled from the spec: an animation, reduced to the state the spec talks
about — a local clock advanced by `dt` each update, and the list of target-node
handles its tracks write poses to. Curve evaluation is out of scope per the
spec, so the pose value written is modelled as the animation's advanced clock. -/
structure Animation where
  time : Rat
  targets : List Nat
deriving Repr, DecidableEq

/-- Advance the animation's local clock by `dt`. -/
def Animation.advance (a : Animation) (dt : Rat) : Animation :=
  { a with time := a.time + dt }

/-- Modelled from the spec: the Animation Container owns a set of animations. -/
structure AnimationContainer where
  animations : List Animation
deriving Repr, DecidableEq

/-- Modelled from the spec: `AnimationContainer::new` produces an empty container. -/
def AnimationContainer.new : AnimationContainer := ⟨[]⟩

/-- Modelled from the spec: a target node elsewhere in the graph, reduced to the
animatable property a pose writes. -/
structure TargetNode where
  position : Rat
deriving Repr, DecidableEq

/-- Modelled from the spec: the graph's node storage as seen by `update_animations`,
an arena where a slot may be vacant (dangling handles resolve to `none`). -/
abbrev NodePool := List (Option TargetNode)

/-- Modelled from the spec: write a pose value to the node at handle `h`; a
dangling or out-of-range handle is a no-op, not an error. -/
def writePose : NodePool → Nat → Rat → NodePool
  | [], _, _ => []
  | n :: rest, 0, v => (n.map fun _ => ⟨v⟩) :: rest
  | n :: rest, Nat.succ h, v => n :: writePose rest h v

/-- Modelled from the spec: apply one animation's computed pose to every node
referenced by one of its tracks' target handles. -/
def applyAnimation (nodes : NodePool) (a : Animation) : NodePool :=
  a.targets.foldl (fun ns h => writePose ns h a.time) nodes

/-- Modelled from the spec: `update_animations(graph_nodes, apply_pose, delta_time)`
advances every contained animation's local clock by `delta_time` and, if
`apply_pose` is true, writes the resulting values onto the referenced nodes. -/
def AnimationContainer.update_animations (c : AnimationContainer) (nodes : NodePool)
    (apply_pose : Bool) (dt : Rat) : AnimationContainer × NodePool :=
  let advanced := c.animations.map (·.advance dt)
  (⟨advanced⟩, if apply_pose then advanced.foldl applyAnimation nodes else nodes)

/-- Modelled from the spec: the Inheritable Slot (`InheritableVariable`), a
wrapper around a value tracking whether it was modified by an authoring action
versus by runtime code. -/
structure InheritableVariable (α : Type) where
  value : α
  modified : Bool
deriving Repr, DecidableEq

/-- Modelled from the spec: read access, observational — returns the wrapped value. -/
def InheritableVariable.get_value_ref (v : InheritableVariable α) : α := v.value

/-- Modelled from the spec: the silent mutable borrow exposes the wrapped value
for mutation without flagging; the embedding splits the borrow into a read
(`get_value_mut_silent`) and a write-back (`set_silent`). -/
def InheritableVariable.get_value_mut_silent (v : InheritableVariable α) : α := v.value

/-- Modelled from the spec: write-back of a silent mutable borrow — the
authoring-modified flag is left unchanged. -/
def InheritableVariable.set_silent (v : InheritableVariable α) (x : α) :
    InheritableVariable α := ⟨x, v.modified⟩

/-- Modelled from the spec: a non-silent write — replaces the value and flags
the slot as authoring-modified. -/
def InheritableVariable.set_value_and_mark_modified (_v : InheritableVariable α)
    (x : α) : InheritableVariable α := ⟨x, true⟩

/-- Modelled from the spec: mutating the wrapped value through the slot's
`DerefMut` path (the ordinary mutable reference) is an authoring mutation and
flags the slot as modified. -/
def InheritableVariable.deref_mut_apply (v : InheritableVariable α) (f : α → α) :
    InheritableVariable α := ⟨f v.value, true⟩

/-- Modelled from the spec: `From<T>` wraps a value in a fresh, non-modified slot. -/
def InheritableVariable.ofValue (x : α) : InheritableVariable α := ⟨x, false⟩

/-- Modelled from the spec: an axis-aligned bounding box, reduced to its bounds. -/
structure AxisAlignedBoundingBox where
  lo : Rat
  hi : Rat
deriving Repr, DecidableEq

/-- Modelled from the spec: the resource manager handed to `restore_resources`. -/
structure ResourceManager where
  tag : Nat
deriving Repr, DecidableEq

/-- Modelled from the spec: the generic Base node state, reduced to the queries
and effects the `AnimationPlayer` forwards to it. `resources_restored` records
the observable effect of `Base::restore_resources`. -/
structure Base where
  local_bb : AxisAlignedBoundingBox
  world_bb : AxisAlignedBoundingBox
  resources_restored : Bool
deriving Repr, DecidableEq

/-- Modelled from the spec: `Base::default`. -/
def Base.default : Base := ⟨⟨0, 0⟩, ⟨0, 0⟩, false⟩

/-- Modelled from the spec: Base's own local bounding box query. -/
def Base.local_bounding_box (b : Base) : AxisAlignedBoundingBox := b.local_bb

/-- Modelled from the spec: Base's own world bounding box query. -/
def Base.world_bounding_box (b : Base) : AxisAlignedBoundingBox := b.world_bb

/-- Modelled from the spec: Base's resource re-resolution effect. -/
def Base.restore_resources (b : Base) (_rm : ResourceManager) : Base :=
  { b with resources_restored := true }

/-- The `AnimationPlayer` node: a Base, an Inheritable Slot wrapping the
animation container, and the `auto_apply` flag (source struct, lines 94–99). -/
structure AnimationPlayer where
  base : Base
  animations : InheritableVariable AnimationContainer
  auto_apply : Bool
deriving Repr, DecidableEq

/-- `impl Default for AnimationPlayer` (source lines 101–109): default base,
default (empty, non-modified) animations slot, `auto_apply = true`. -/
def AnimationPlayer.default : AnimationPlayer :=
  ⟨Base.default, ⟨AnimationContainer.new, false⟩, true⟩

/-- `AnimationPlayer::set_auto_apply` (source lines 116–118). -/
def AnimationPlayer.set_auto_apply (p : AnimationPlayer) (b : Bool) : AnimationPlayer :=
  { p with auto_apply := b }

/-- `AnimationPlayer::is_auto_apply` (source lines 122–124). -/
def AnimationPlayer.is_auto_apply (p : AnimationPlayer) : Bool := p.auto_apply

/-- `AnimationPlayer::animations` (source lines 127–129): shared reference to
the slot — embedded as the pure projection. -/
def AnimationPlayer.animations_ref (p : AnimationPlayer) :
    InheritableVariable AnimationContainer := p.animations

/-- `AnimationPlayer::animations_mut` (source lines 133–135) followed by a
mutation of the container through the returned reference's `DerefMut` path —
embedded as applying `f` through the slot's authoring-mutation access. -/
def AnimationPlayer.animations_mut_apply (p : AnimationPlayer)
    (f : AnimationContainer → AnimationContainer) : AnimationPlayer :=
  { p with animations := p.animations.deref_mut_apply f }

/-- `AnimationPlayer::set_animations` (source lines 138–140): replaces the
container through `set_value_and_mark_modified`. -/
def AnimationPlayer.set_animations (p : AnimationPlayer) (c : AnimationContainer) :
    AnimationPlayer :=
  { p with animations := p.animations.set_value_and_mark_modified c }

/-- `TypeUuidProvider for AnimationPlayer` (source lines 143–147): the literal
`uuid!("44d1c94e-354f-4f9a-b918-9d31c28aa16a")` as a number. -/
def AnimationPlayer.type_uuid : Uuid := 0x44d1c94e354f4f9ab9189d31c28aa16a

/-- `NodeTrait::id` for `AnimationPlayer` (source lines 178–180). -/
def AnimationPlayer.id (_p : AnimationPlayer) : Uuid := AnimationPlayer.type_uuid

/-- `NodeTrait::local_bounding_box` (source lines 166–168): forwards to Base. -/
def AnimationPlayer.local_bounding_box (p : AnimationPlayer) : AxisAlignedBoundingBox :=
  p.base.local_bounding_box

/-- `NodeTrait::world_bounding_box` (source lines 170–172): forwards to Base. -/
def AnimationPlayer.world_bounding_box (p : AnimationPlayer) : AxisAlignedBoundingBox :=
  p.base.world_bounding_box

/-- `NodeTrait::restore_resources` (source lines 174–176): forwards to Base. -/
def AnimationPlayer.restore_resources (p : AnimationPlayer) (rm : ResourceManager) :
    AnimationPlayer :=
  { p with base := p.base.restore_resources rm }

/-- The update context (source line 18, `node::UpdateContext`): mutable access
to the graph's nodes and the frame's `dt`. -/
structure UpdateContext where
  nodes : NodePool
  dt : Rat
deriving Repr, DecidableEq

/-- `NodeTrait::update` (source lines 182–188): obtains a silent mutable borrow
of the animations slot and delegates to the container's
`update_animations(context.nodes, self.auto_apply, context.dt)`.  The mutated
node and node pool are returned explicitly. -/
def AnimationPlayer.update (p : AnimationPlayer) (context : UpdateContext) :
    AnimationPlayer × NodePool :=
  let r := (p.animations.get_value_mut_silent).update_animations
    context.nodes p.auto_apply context.dt
  ({ p with animations := p.animations.set_silent r.1 }, r.2)

/-- Repeated per-frame updates: fold `update` over a list of contexts. -/
def AnimationPlayer.updateMany (p : AnimationPlayer) (ctxs : List UpdateContext) :
    AnimationPlayer :=
  ctxs.foldl (fun q c => (q.update c).1) p

/-- Modelled from the spec: `BaseBuilder`, reduced to the Base it materializes. -/
structure BaseBuilder where
  base : Base
deriving Repr, DecidableEq

/-- Modelled from the spec: `BaseBuilder::build_base` materializes the Base. -/
def BaseBuilder.build_base (b : BaseBuilder) : Base := b.base

/-- The polymorphic graph node (source line 18). Sibling node kinds are out of
scope; the variant relevant here wraps an `AnimationPlayer`. -/
inductive Node where
  | animationPlayer (p : AnimationPlayer)
deriving Repr, DecidableEq

/-- `Node::new` wraps a concrete node value for generic storage in the graph. -/
def Node.new (p : AnimationPlayer) : Node := .animationPlayer p

/-- Modelled from the spec: the scene graph's node storage, an arena of nodes;
handles are stable indices. -/
structure Graph where
  nodes : List Node
deriving Repr, DecidableEq

/-- Modelled from the spec: `Graph::add_node` inserts the node and returns the
updated graph together with the new node's handle. -/
def Graph.add_node (g : Graph) (n : Node) : Graph × Nat :=
  (⟨g.nodes ++ [n]⟩, g.nodes.length)

/-- `AnimationPlayerBuilder` (source lines 192–196). -/
structure AnimationPlayerBuilder where
  base_builder : BaseBuilder
  animations : AnimationContainer
  auto_apply : Bool
deriving Repr, DecidableEq

/-- `AnimationPlayerBuilder::new` (source lines 200–206): empty container,
`auto_apply = true`. -/
def AnimationPlayerBuilder.new (base_builder : BaseBuilder) : AnimationPlayerBuilder :=
  ⟨base_builder, AnimationContainer.new, true⟩

/-- `AnimationPlayerBuilder::with_animations` (source lines 209–212). -/
def AnimationPlayerBuilder.with_animations (b : AnimationPlayerBuilder)
    (animations : AnimationContainer) : AnimationPlayerBuilder :=
  { b with animations := animations }

/-- `AnimationPlayerBuilder::with_auto_apply` (source lines 215–218). -/
def AnimationPlayerBuilder.with_auto_apply (b : AnimationPlayerBuilder)
    (auto_apply : Bool) : AnimationPlayerBuilder :=
  { b with auto_apply := auto_apply }

/-- `AnimationPlayerBuilder::build_node` (source lines 221–227). -/
def AnimationPlayerBuilder.build_node (b : AnimationPlayerBuilder) : Node :=
  Node.new ⟨b.base_builder.build_base, InheritableVariable.ofValue b.animations,
    b.auto_apply⟩

/-- `AnimationPlayerBuilder::build` (source lines 230–232): inserts the built
node into the graph, returning the updated graph and the new handle. -/
def AnimationPlayerBuilder.build (b : AnimationPlayerBuilder) (graph : Graph) :
    Graph × Nat :=
  graph.add_node b.build_node

/-- One `update` step leaves the authoring-modified flag of the animations slot
unchanged (silent path). -/
theorem AnimationPlayer.update_modified_eq (p : AnimationPlayer) (c : UpdateContext) :
    ((p.update c).1).animations.modified = p.animations.modified := rfl

/-- C1: invoking `update` any number of times never changes the
authoring-modified flag of the Inheritable Slot wrapping the animation
container (the write goes through the silent path), while invoking
`set_animations` exactly once sets that flag. -/
theorem C1_update_silent_set_animations_marks (p : AnimationPlayer)
    (ctxs : List UpdateContext) (c : AnimationContainer) :
    (p.updateMany ctxs).animations.modified = p.animations.modified ∧
      (p.set_animations c).animations.modified = true := by
  constructor
  · induction ctxs generalizing p with
    | nil => rfl
    | cons x xs ih =>
        simpa [AnimationPlayer.updateMany, AnimationPlayer.update_modified_eq]
          using ih ((p.update x).1)
  · rfl

/-- C2: `update(context)` obtains a silent mutable reference to the animation
container and delegates exactly to the container's `update_animations` with
arguments `(context.nodes, self.auto_apply, context.dt)`, in that order; it
performs no other work — the resulting node differs from the input node only in
the slot's value (silently written), and the returned node pool is exactly what
`update_animations` produced. -/
theorem C2_update_delegates (p : AnimationPlayer) (context : UpdateContext) :
    (p.update context).1.animations.value =
        ((p.animations.get_value_mut_silent).update_animations
          context.nodes p.auto_apply context.dt).1 ∧
      (p.update context).2 =
        ((p.animations.get_value_mut_silent).update_animations
          context.nodes p.auto_apply context.dt).2 ∧
      (p.update context).1.animations.modified = p.animations.modified ∧
      (p.update context).1.base = p.base ∧
      (p.update context).1.auto_apply = p.auto_apply :=
  ⟨rfl, rfl, rfl, rfl, rfl⟩

/-- C3: any mutation performed through the reference returned by
`animations_mut` goes through the slot's `DerefMut` path and is treated as an
authoring edit — it sets the Inheritable Slot's authoring-modified flag and
forwards the mutation to the wrapped container — while read access through
`animations` is pure and leaves the node, in particular that flag, unchanged. -/
theorem C3_animations_mut_marks_modified (p : AnimationPlayer)
    (f : AnimationContainer → AnimationContainer) :
    (p.animations_mut_apply f).animations.modified = true ∧
      (p.animations_mut_apply f).animations.value = f p.animations.value ∧
      p.animations_ref = p.animations ∧
      (p.animations_ref).modified = p.animations.modified :=
  ⟨rfl, rfl, rfl, rfl⟩

/-- C4: `build(graph)` is exactly `build_node()` followed by inserting the
resulting node into the graph and returning the new handle — the new graph is
the old storage with `build_node` appended and the handle is the fresh index;
`build_node` is a pure function of the builder alone. -/
theorem C4_build_is_build_node_then_insert (b : AnimationPlayerBuilder) (g : Graph) :
    b.build g = g.add_node b.build_node ∧
      (b.build g).1.nodes = g.nodes ++ [b.build_node] ∧
      (b.build g).2 = g.nodes.length :=
  ⟨rfl, rfl, rfl⟩

/-- C5: `AnimationPlayerBuilder::new(base_builder)` starts with an empty
animation container and `auto_apply = true`; the default value of `auto_apply`
on an `AnimationPlayer` is `true`. -/
theorem C5_builder_new_defaults (b : BaseBuilder) :
    (AnimationPlayerBuilder.new b).animations = AnimationContainer.new ∧
      (AnimationPlayerBuilder.new b).animations.animations = [] ∧
      (AnimationPlayerBuilder.new b).auto_apply = true ∧
      AnimationPlayer.default.auto_apply = true :=
  ⟨rfl, rfl, rfl, rfl⟩

/-- C6: calling `with_auto_apply true` twice in a row yields the same final node
(via `build_node`) as calling it once; each `with_*` setter overwrites the
stored value, so repeating it with the same argument is idempotent. -/
theorem C6_with_setters_idempotent (b : AnimationPlayerBuilder) (v : Bool)
    (c : AnimationContainer) :
    ((b.with_auto_apply true).with_auto_apply true).build_node =
        (b.with_auto_apply true).build_node ∧
      (b.with_auto_apply v).with_auto_apply v = b.with_auto_apply v ∧
      (b.with_animations c).with_animations c = b.with_animations c :=
  ⟨rfl, rfl, rfl⟩

/-- C7: `set_auto_apply b` changes only the node's own `auto_apply` field — the
base and the animations slot, including its authoring-modified flag, are
unchanged — and a subsequent `is_auto_apply` returns `b`. -/
theorem C7_set_auto_apply_local (p : AnimationPlayer) (b : Bool) :
    (p.set_auto_apply b).is_auto_apply = b ∧
      (p.set_auto_apply b).auto_apply = b ∧
      (p.set_auto_apply b).base = p.base ∧
      (p.set_auto_apply b).animations = p.animations ∧
      (p.set_auto_apply b).animations.modified = p.animations.modified :=
  ⟨rfl, rfl, rfl, rfl, rfl⟩

/-- C8: `local_bounding_box`, `world_bounding_box` and `restore_resources` are
pure forwarding to the Base component: the queries return exactly Base's
answers, and `restore_resources` performs exactly Base's effect, leaving the
animations slot and `auto_apply` untouched. -/
theorem C8_forwarding_to_base (p : AnimationPlayer) (rm : ResourceManager) :
    p.local_bounding_box = p.base.local_bounding_box ∧
      p.world_bounding_box = p.base.world_bounding_box ∧
      (p.restore_resources rm).base = p.base.restore_resources rm ∧
      (p.restore_resources rm).animations = p.animations ∧
      (p.restore_resources rm).auto_apply = p.auto_apply :=
  ⟨rfl, rfl, rfl, rfl, rfl⟩

/-- C9: `id()` returns the fixed type-identity constant — the type UUID
`44d1c94e-354f-4f9a-b918-9d31c28aa16a` — regardless of the instance's state, so
any two instances' `id()` values are equal. -/
theorem C9_id_is_type_uuid (p q : AnimationPlayer) :
    p.id = AnimationPlayer.type_uuid ∧
      AnimationPlayer.type_uuid = 0x44d1c94e354f4f9ab9189d31c28aa16a ∧
      p.id = q.id :=
  ⟨rfl, rfl, rfl⟩

/-- C10: `update(context)` leaves the node's `base` and `auto_apply` fields
unchanged: the only component of the node it may mutate is the inner value of
the animations slot, and that only through the silent path (the flag is
preserved). -/
theorem C10_update_touches_only_slot_value (p : AnimationPlayer) (c : UpdateContext) :
    (p.update c).1.base = p.base ∧
      (p.update c).1.auto_apply = p.auto_apply ∧
      (p.update c).1.animations.modified = p.animations.modified :=
  ⟨rfl, rfl, rfl⟩

end Fyrox
